import Mathlib

/-!
# Verification of the Instagram MCP gateway client (`src/instagram_client.py`)

A shallow embedding of the gateway client: the cache-key computation
(`_get_cache_key`), the TTL cache (`_is_cache_valid`, `_cache_response`),
the request dispatcher (`_make_request`), the image aspect-ratio validator
(`_validate_image_aspect_ratio`), the two-phase publish workflow
(`publish_media`) and the public operations (`get_profile_info`,
`get_media_posts`, `get_conversations`, `get_conversation_messages`,
`send_dm`).

Conventions of the embedding:
* Time is modelled as natural-number seconds (the source stores ISO
  timestamps and compares `datetime` values; only the order and the
  second-granularity arithmetic matter).
* The HTTP layer is an oracle: each dispatched request consumes one
  `HttpOutcome` describing what the network returned (transport failure,
  HTTP 429, unparseable body, an error envelope, or a success payload).
  Success payloads are opaque strings; for the publish workflow the
  payload of the container-create call stands for the container id that
  the source reads out of `container_response["id"]`.
* Side effects (throttler acquisition, HTTP calls, the validator image
  download) are recorded in an explicit effect trace.
-/

deriving instance DecidableEq for Except

namespace IgMcp

/-- `InstagramAPIError(message, error_code, error_subcode)` from
`instagram_client.py`.  `str(e)` of such an exception is its `message`. -/
structure InstagramAPIError where
  message : String
  error_code : Option Int
  error_subcode : Option Int
deriving Repr, DecidableEq

/-- The exceptions that `_make_request` can raise: `RateLimitExceeded`
(a subclass of `InstagramAPIError`), a plain `InstagramAPIError`, or the
`ValueError` raised for an unsupported HTTP method (which is *not* an
`InstagramAPIError` and is not caught by `except InstagramAPIError`). -/
inductive ClientError
  | rateLimitExceeded (e : InstagramAPIError)
  | apiError (e : InstagramAPIError)
  | valueError (msg : String)
deriving Repr, DecidableEq

/-- Python `str(e)` for the exceptions above. -/
def ClientError.message : ClientError → String
  | .rateLimitExceeded e => e.message
  | .apiError e => e.message
  | .valueError m => m

/-- The subset of `InstagramMCPSettings` (`config.py`) that the gateway
client reads. -/
structure Settings where
  instagram_access_token : String
  instagram_business_account_id : Option String
  instagram_api_base_url : String
  instagram_api_version : String
  rate_limit_requests_per_hour : Nat
  cache_enabled : Bool
  cache_ttl_seconds : Nat
deriving Repr, DecidableEq

/-- `InstagramMCPSettings.instagram_api_url`:
`f"{self.instagram_api_base_url}/{self.instagram_api_version}"`. -/
def Settings.instagram_api_url (s : Settings) : String :=
  s.instagram_api_base_url ++ "/" ++ s.instagram_api_version

/-! ## Python string helpers -/

/-- Python `sub in s` on character lists: `pat` occurs contiguously in `l`. -/
def containsSub (pat : List Char) : List Char → Bool
  | [] => pat.isEmpty
  | c :: t => pat.isPrefixOf (c :: t) || containsSub pat t

/-- Python `sub in s` for strings. -/
def strContains (s pat : String) : Bool :=
  containsSub pat.toList s.toList

/-- Python `s.lower()` (ASCII case folding, which is all the matched
error messages use). -/
def pyLower (s : String) : String :=
  String.mk (s.data.map Char.toLower)

/-- Python `s.upper()` (ASCII case folding; applied to HTTP method
names). -/
def pyUpper (s : String) : String :=
  String.mk (s.data.map Char.toUpper)

/-! ## `urllib.parse.urlencode` on sorted items

`_get_cache_key` computes `urlencode(sorted(params.items()))`.
`urlencode` quotes each key and value with `quote_plus`: ASCII letters,
digits and `_ . - ~` are kept, a space becomes `+`, and every other
character is percent-encoded byte-wise from its UTF-8 encoding. -/

/-- Upper-case hex digit. -/
def hexDigit (n : Nat) : Char :=
  if n < 10 then Char.ofNat (48 + n) else Char.ofNat (55 + n)

/-- UTF-8 encoding of a code point, as byte values. -/
def utf8Bytes (n : Nat) : List Nat :=
  if n < 0x80 then [n]
  else if n < 0x800 then [0xC0 + n / 0x40, 0x80 + n % 0x40]
  else if n < 0x10000 then
    [0xE0 + n / 0x1000, 0x80 + n / 0x40 % 0x40, 0x80 + n % 0x40]
  else
    [0xF0 + n / 0x40000, 0x80 + n / 0x1000 % 0x40, 0x80 + n / 0x40 % 0x40,
     0x80 + n % 0x40]

/-- `%XX` percent-encoding of one byte. -/
def percentByte (b : Nat) : String :=
  String.mk ['%', hexDigit (b / 16), hexDigit (b % 16)]

/-- `urllib.parse.quote_plus` on a single character. -/
def quotePlusChar (c : Char) : String :=
  if c.isAlphanum && c.val < 128 then String.singleton c
  else if c = '_' || c = '.' || c = '-' || c = '~' then String.singleton c
  else if c = ' ' then "+"
  else String.join ((utf8Bytes c.toNat).map percentByte)

/-- `urllib.parse.quote_plus`. -/
def quote_plus (s : String) : String :=
  String.join (s.toList.map quotePlusChar)

/-- `urllib.parse.urlencode` over a list of key/value items. -/
def urlencode (items : List (String × String)) : String :=
  String.intercalate "&" (items.map fun p => quote_plus p.1 ++ "=" ++ quote_plus p.2)

/-! ## Python `sorted` on `(key, value)` string pairs

Python compares strings lexicographically by code point and tuples
componentwise.  The comparison is implemented computationally (so that the
kernel can evaluate cache keys on concrete inputs) and proven to be a
total order below. -/

/-- Python `a < b` on strings, over their character lists: lexicographic
by code point, a proper prefix is smaller. -/
def strLt : List Char → List Char → Bool
  | [], [] => false
  | [], _ :: _ => true
  | _ :: _, [] => false
  | a :: as, b :: bs =>
    Nat.blt a.toNat b.toNat || (a.toNat == b.toNat && strLt as bs)

/-- Python `p <= q` on `(str, str)` tuples: lexicographic, first component
first. -/
def pairLeB (p q : String × String) : Bool :=
  strLt p.1.data q.1.data || (p.1 == q.1 && !strLt q.2.data p.2.data)

/-- The sorting relation used for `sorted(params.items())`. -/
def pairLe (p q : String × String) : Prop :=
  pairLeB p q = true

instance : DecidableRel pairLe := fun p q =>
  inferInstanceAs (Decidable (pairLeB p q = true))

theorem char_toNat_inj {a b : Char} (h : a.toNat = b.toNat) : a = b :=
  Char.ext (UInt32.toNat.inj h)

theorem blt_false {x y : Nat} (h : ¬ x < y) : Nat.blt x y = false := by
  cases hb : Nat.blt x y with
  | false => rfl
  | true => exact absurd (by simpa [Nat.blt_eq] using hb) h

theorem blt_true {x y : Nat} (h : x < y) : Nat.blt x y = true := by
  simpa [Nat.blt_eq] using h

theorem strLt_asymm : ∀ a b : List Char, strLt a b = true → strLt b a = false
  | [], [] => by simp [strLt]
  | [], _ :: _ => by simp [strLt]
  | _ :: _, [] => by simp [strLt]
  | a :: as, b :: bs => by
    simp only [strLt, Bool.or_eq_true, Bool.and_eq_true, Nat.blt_eq,
      beq_iff_eq]
    rintro (hlt | ⟨heq, hrec⟩)
    · have h1 : Nat.blt b.toNat a.toNat = false := blt_false (by omega)
      have h2 : (b.toNat == a.toNat) = false := by
        simp only [beq_eq_false_iff_ne, ne_eq]
        omega
      simp [strLt, h1, h2]
    · have h1 : Nat.blt b.toNat a.toNat = false := blt_false (by omega)
      have h3 := strLt_asymm as bs hrec
      simp [strLt, h1, h3]

theorem strLt_irrefl (a : List Char) : strLt a a = false := by
  cases h : strLt a a with
  | false => rfl
  | true => exact absurd (strLt_asymm a a h) (by simp [h])

theorem strLt_total : ∀ a b : List Char,
    strLt a b = false → strLt b a = false → a = b
  | [], [], _, _ => rfl
  | [], _ :: _, h, _ => by simp [strLt] at h
  | _ :: _, [], _, h => by simp [strLt] at h
  | a :: as, b :: bs, h1, h2 => by
    rcases Nat.lt_trichotomy a.toNat b.toNat with hlt | heq | hgt
    · rw [show strLt (a :: as) (b :: bs) =
          (Nat.blt a.toNat b.toNat || (a.toNat == b.toNat && strLt as bs))
          from rfl, blt_true hlt] at h1
      simp at h1
    · have hblt : Nat.blt b.toNat b.toNat = false := blt_false (by omega)
      rw [char_toNat_inj heq] at h1 h2 ⊢
      simp only [strLt, hblt, beq_self_eq_true, Bool.false_or,
        Bool.true_and] at h1 h2
      rw [strLt_total as bs h1 h2]
    · rw [show strLt (b :: bs) (a :: as) =
          (Nat.blt b.toNat a.toNat || (b.toNat == a.toNat && strLt bs as))
          from rfl, blt_true hgt] at h2
      simp at h2

theorem strLt_trans : ∀ a b c : List Char,
    strLt a b = true → strLt b c = true → strLt a c = true
  | [], [], _, hab, _ => by simp [strLt] at hab
  | [], _ :: _, [], _, hbc => by simp [strLt] at hbc
  | [], _ :: _, _ :: _, _, _ => by simp [strLt]
  | _ :: _, [], _, hab, _ => by simp [strLt] at hab
  | _ :: _, _ :: _, [], _, hbc => by simp [strLt] at hbc
  | a :: as, b :: bs, c :: cs, hab, hbc => by
    simp only [strLt, Bool.or_eq_true, Bool.and_eq_true, Nat.blt_eq,
      beq_iff_eq] at hab hbc ⊢
    rcases hab with hab | ⟨hab, hab'⟩
    · rcases hbc with hbc | ⟨hbc, _⟩
      · exact Or.inl (hab.trans hbc)
      · exact Or.inl (hbc ▸ hab)
    · rcases hbc with hbc | ⟨hbc, hbc'⟩
      · exact Or.inl (hab ▸ hbc)
      · exact Or.inr ⟨hab.trans hbc, strLt_trans as bs cs hab' hbc'⟩

theorem string_eq_of_data_eq {a b : String} (h : a.data = b.data) : a = b := by
  cases a
  cases b
  exact congrArg String.mk h

instance : IsTotal (String × String) pairLe where
  total p q := by
    unfold pairLe pairLeB
    cases h1 : strLt p.1.data q.1.data with
    | true => simp
    | false =>
      cases h2 : strLt q.1.data p.1.data with
      | true => simp
      | false =>
        have hk : p.1 = q.1 := string_eq_of_data_eq (strLt_total _ _ h1 h2)
        cases h3 : strLt q.2.data p.2.data with
        | false => simp [hk, h3]
        | true =>
          right
          simp [hk, strLt_asymm _ _ h3]

instance : IsTrans (String × String) pairLe where
  trans p q r hpq hqr := by
    unfold pairLe pairLeB at hpq hqr ⊢
    simp only [Bool.or_eq_true, Bool.and_eq_true, beq_iff_eq,
      Bool.not_eq_true'] at hpq hqr ⊢
    rcases hpq with h1 | ⟨h1, h1'⟩
    · rcases hqr with h2 | ⟨h2, _⟩
      · exact Or.inl (strLt_trans _ _ _ h1 h2)
      · exact Or.inl (h2 ▸ h1)
    · rcases hqr with h2 | ⟨h2, h2'⟩
      · exact Or.inl (h1 ▸ h2)
      · refine Or.inr ⟨h1.trans h2, ?_⟩
        cases h3 : strLt r.2.data p.2.data with
        | false => rfl
        | true =>
          exfalso
          cases h4 : strLt p.2.data q.2.data with
          | false =>
            have h5 : p.2 = q.2 := string_eq_of_data_eq (strLt_total _ _ h4 h1')
            rw [h5] at h3
            exact absurd h3 (by simp [h2'])
          | true =>
            exact absurd (strLt_trans _ _ _ h3 h4) (by simp [h2'])

instance : IsAntisymm (String × String) pairLe where
  antisymm p q hpq hqp := by
    unfold pairLe pairLeB at hpq hqp
    simp only [Bool.or_eq_true, Bool.and_eq_true, beq_iff_eq,
      Bool.not_eq_true'] at hpq hqp
    rcases hpq with h1 | ⟨h1, h1'⟩
    · rcases hqp with h2 | ⟨h2, _⟩
      · exact absurd (strLt_trans _ _ _ h1 h2) (by simp [strLt_irrefl])
      · exact absurd h1 (by simp [h2, strLt_irrefl])
    · rcases hqp with h2 | ⟨h2, h2'⟩
      · exact absurd h2 (by simp [h1, strLt_irrefl])
      · exact Prod.ext h1
          (string_eq_of_data_eq (strLt_total _ _ h2' h1'))

/-- Python `sorted(params.items())`. -/
def sortedParams (params : List (String × String)) : List (String × String) :=
  List.insertionSort pairLe params

/-! ## Cache key, cache store -/

/-- `InstagramClient._get_cache_key`:
`param_str = urlencode(sorted(params.items())); return f"{endpoint}?{param_str}"`. -/
def _get_cache_key (endpoint : String) (params : List (String × String)) : String :=
  endpoint ++ "?" ++ urlencode (sortedParams params)

/-- One entry of `InstagramClient._cache`. -/
structure CacheEntry where
  data : String
  expires_at : Nat
  cached_at : Nat
deriving Repr, DecidableEq

/-- `InstagramClient._cache`, a string-keyed dictionary. -/
abbrev Cache := List (String × CacheEntry)

/-- Python dictionary lookup on an association list. -/
def dictGet {α : Type} (m : List (String × α)) (k : String) : Option α :=
  (m.find? fun p => p.1 == k).map (·.2)

/-- Python dictionary assignment `m[k] = v` (replaces any previous binding). -/
def dictSet {α : Type} (m : List (String × α)) (k : String) (v : α) :
    List (String × α) :=
  (m.filter fun p => p.1 != k) ++ [(k, v)]

/-- `InstagramClient._is_cache_valid`: caching must be globally enabled and
`expires_at` must be strictly in the future. -/
def _is_cache_valid (s : Settings) (now : Nat) (entry : CacheEntry) : Bool :=
  s.cache_enabled && decide (now < entry.expires_at)

/-- `InstagramClient._cache_response`: a no-op when caching is disabled,
otherwise stores the data with `expires_at = now + cache_ttl_seconds`. -/
def _cache_response (s : Settings) (now : Nat) (cache : Cache) (key : String)
    (data : String) : Cache :=
  if s.cache_enabled then
    dictSet cache key ⟨data, now + s.cache_ttl_seconds, now⟩
  else cache

/-- The cache read performed by `_make_request`
(`cache_key in self._cache` followed by `_is_cache_valid`): `some data` on
a hit with a valid entry, `none` otherwise. -/
def cache_get (s : Settings) (now : Nat) (cache : Cache) (key : String) :
    Option String :=
  match dictGet cache key with
  | some entry => if _is_cache_valid s now entry then some entry.data else none
  | none => none

/-! ## The request dispatcher `_make_request` -/

/-- What the remote returned for one dispatched request:
a transport failure (`httpx.RequestError`), HTTP status 429, a body that
is not JSON, a body containing an `"error"` envelope, or a success body
(modelled as an opaque payload string). -/
inductive HttpOutcome
  | transportError (msg : String)
  | httpStatus429
  | jsonDecodeError (msg : String)
  | errorEnvelope (message : Option String) (code : Option Int)
      (error_subcode : Option Int)
  | okPayload (data : String)
deriving Repr, DecidableEq

/-- Observable side effects of the gateway client. -/
inductive Effect
  | throttlerAcquire
  | httpCall (method : String) (url : String)
      (params : List (String × String)) (body : Option (List (String × String)))
  | imageFetch (url : String)
deriving Repr, DecidableEq

/-- The `(method, url)` projection of the HTTP calls in an effect trace. -/
def httpCalls (effects : List Effect) : List (String × String) :=
  effects.filterMap fun e =>
    match e with
    | .httpCall m u _ _ => some (m, u)
    | _ => none

/-- The cache key `_make_request` computes: the access token has already
been assigned into `params` when `_get_cache_key` is called. -/
def request_cache_key (s : Settings) (endpoint : String)
    (params : List (String × String)) : String :=
  _get_cache_key endpoint (dictSet params "access_token" s.instagram_access_token)

/-- Result of one `_make_request` call: the returned value or raised
exception, the effect trace, and the cache afterwards. -/
structure DispatchResult where
  result : Except ClientError String
  effects : List Effect
  cache : Cache

/-- `InstagramClient._make_request`.  Faithful ordering: the access token
is assigned into `params` first, then the cache key is computed (over the
token-bearing `params`), then for cacheable GETs the cache is consulted
*before* the throttler; otherwise the throttler is acquired, the host is
selected, the HTTP call is issued and its outcome is translated into a
return value or an exception; successful cacheable GETs are stored. -/
def make_request (s : Settings) (now : Nat) (cache : Cache)
    (method : String) (endpoint : String)
    (params : List (String × String))
    (data : Option (List (String × String)))
    (use_cache : Bool) (use_facebook_api : Bool)
    (outcome : HttpOutcome) : DispatchResult :=
  let params := dictSet params "access_token" s.instagram_access_token
  let cache_key := _get_cache_key endpoint params
  match (if pyUpper method == "GET" && use_cache then
           cache_get s now cache cache_key
         else none) with
  | some cached => ⟨.ok cached, [], cache⟩
  | none =>
    let base_url :=
      if use_facebook_api then "https://graph.facebook.com/v22.0"
      else s.instagram_api_url
    let url := base_url ++ "/" ++ endpoint
    if pyUpper method == "GET" || pyUpper method == "POST" then
      let effects := [.throttlerAcquire, .httpCall method url params data]
      match outcome with
      | .httpStatus429 =>
          ⟨.error (.rateLimitExceeded
            ⟨"Instagram API rate limit exceeded", none, none⟩), effects, cache⟩
      | .errorEnvelope msg code sub =>
          ⟨.error (.apiError ⟨msg.getD "Unknown error", code, sub⟩),
           effects, cache⟩
      | .okPayload d =>
          let cache2 :=
            if pyUpper method == "GET" && use_cache then
              _cache_response s now cache cache_key d
            else cache
          ⟨.ok d, effects, cache2⟩
      | .transportError m =>
          ⟨.error (.apiError ⟨"HTTP request failed: " ++ m, none, none⟩),
           effects, cache⟩
      | .jsonDecodeError m =>
          ⟨.error (.apiError ⟨"Invalid JSON response: " ++ m, none, none⟩),
           effects, cache⟩
    else
      ⟨.error (.valueError ("Unsupported HTTP method: " ++ method)),
       [.throttlerAcquire], cache⟩

/-! ## Image precondition validator -/

/-- `ACCEPTED_RATIOS` from `_validate_image_aspect_ratio`:
name, target ratio, band minimum, band maximum. -/
def ACCEPTED_RATIOS : List (String × ℚ × ℚ × ℚ) :=
  [("4:5 (portrait)", (0.8, 0.78, 0.82)),
   ("1:1 (square)", (1.0, 0.98, 1.02)),
   ("1.91:1 (landscape)", (1.91, 1.89, 1.93))]

/-- Python `f"{width/height:.2f}"`: the ratio times 100 rounded to the
nearest integer (half away from zero; the tie-to-even cases of binary
floats never arise for the inputs of interest), printed with two
decimals. -/
def ratio2f (width height : Nat) : String :=
  let n : Nat := (width * 200 + height) / (2 * height)
  toString (n / 100) ++ "." ++ (if n % 100 < 10 then "0" else "") ++
    toString (n % 100)

/-- The rejection message built by `_validate_image_aspect_ratio`: it names
the measured dimensions, the measured ratio (two decimals) and the three
accepted bands. -/
def aspectRatioErrorMsg (width height : Nat) : String :=
  "Image aspect ratio " ++ toString width ++ ":" ++ toString height ++
    " (ratio " ++ ratio2f width height ++
    ") is not supported by Instagram.\n" ++
    "Accepted ratios are:\n" ++
    "  - 4:5 (portrait, ratio ~0.8)\n" ++
    "  - 1:1 (square, ratio 1.0)\n" ++
    "  - 1.91:1 (landscape, ratio ~1.91)\n" ++
    "Please crop or resize your image to one of these ratios."

/-- `InstagramClient._validate_image_aspect_ratio`.  The image download is
an oracle: either a transport failure message or the decoded `(width,
height)`.  On success the ratio `width / height` must fall inside one of
the `ACCEPTED_RATIOS` bands; otherwise an `InstagramAPIError` carrying the
formatted rejection message is raised. -/
def _validate_image_aspect_ratio (fetch : Except String (Nat × Nat)) :
    Except InstagramAPIError Unit :=
  match fetch with
  | .error e =>
      .error ⟨"Failed to download image for validation: " ++ e, none, none⟩
  | .ok (width, height) =>
      let ratio : ℚ := (width : ℚ) / (height : ℚ)
      if ACCEPTED_RATIOS.any
          (fun b => decide (b.2.2.1 ≤ ratio) && decide (ratio ≤ b.2.2.2)) then
        .ok ()
      else
        .error ⟨aspectRatioErrorMsg width height, none, none⟩

/-! ## Public operations -/

/-- The `fields` list of `get_profile_info`, comma-joined. -/
def PROFILE_FIELDS : String :=
  "id,username,name,biography,website,profile_picture_url,followers_count,follows_count,media_count"

/-- `InstagramClient.get_profile_info`.  The configuration check happens
before the `try` block; inside it, any exception is re-raised as
`InstagramAPIError("Failed to get profile info: " + str(e))`, dropping the
original error code and subcode.  The parsed `InstagramProfile` is
modelled as the raw success payload. -/
def get_profile_info (s : Settings) (now : Nat) (cache : Cache)
    (account_id : Option String) (outcome : HttpOutcome) :
    Except InstagramAPIError String :=
  match account_id.orElse (fun _ => s.instagram_business_account_id) with
  | none => .error ⟨"Instagram business account ID not configured", none, none⟩
  | some acc =>
    let params := [("fields", PROFILE_FIELDS)]
    match (make_request s now cache "GET" acc params none true false
        outcome).result with
    | .ok d => .ok d
    | .error e =>
        .error ⟨"Failed to get profile info: " ++ e.message, none, none⟩

/-- The `fields` list of `get_media_posts`, comma-joined. -/
def MEDIA_FIELDS : String :=
  "id,media_type,media_url,permalink,thumbnail_url,caption,timestamp,like_count,comments_count"

/-- The query parameters built by `get_media_posts`: the requested page
size is clamped with `min(limit, 100)` ("Instagram API limit"), and the
pagination cursor is appended only when present. -/
def get_media_posts_params (limit : Int) (after : Option String) :
    List (String × String) :=
  let params := [("fields", MEDIA_FIELDS), ("limit", toString (min limit 100))]
  match after with
  | some a => params ++ [("after", a)]
  | none => params

/-- `InstagramClient.get_media_posts` (parsed media list modelled as the
raw success payload). -/
def get_media_posts (s : Settings) (now : Nat) (cache : Cache)
    (account_id : Option String) (limit : Int) (after : Option String)
    (outcome : HttpOutcome) : Except InstagramAPIError String :=
  match account_id.orElse (fun _ => s.instagram_business_account_id) with
  | none => .error ⟨"Instagram business account ID not configured", none, none⟩
  | some acc =>
    match (make_request s now cache "GET" (acc ++ "/media")
        (get_media_posts_params limit after) none true false outcome).result with
    | .ok d => .ok d
    | .error e =>
        .error ⟨"Failed to get media posts: " ++ e.message, none, none⟩

/-! ## Publish workflow -/

/-- `PublishMediaRequest` (`models/instagram_models.py`), the fields the
client reads; URLs are modelled as strings. -/
structure PublishMediaRequest where
  image_url : Option String
  video_url : Option String
  caption : Option String
  location_id : Option String
deriving Repr, DecidableEq

/-- `PublishMediaResponse`: `id` plus a `status` field defaulting to
`"published"` (the `success=True` keyword passed by the client is not a
declared model field). -/
structure PublishMediaResponse where
  id : String
  status : String
deriving Repr, DecidableEq

/-- `InstagramClient.publish_media`: the two-phase publish workflow.
The configuration check precedes the `try` block; inside it the image
precondition validator runs first (only for image references), then the
container-create request, then the publish-commit request referencing the
returned container id.  Any exception raised inside the `try` block is
re-raised as `InstagramAPIError("Failed to publish media: " + str(e))`.
The container-create success payload stands for `container_response["id"]`.
Returns the result together with the full effect trace. -/
def publish_media (s : Settings) (now : Nat) (cache : Cache)
    (request : PublishMediaRequest)
    (fetch : Except String (Nat × Nat))
    (createOutcome publishOutcome : HttpOutcome) :
    Except InstagramAPIError PublishMediaResponse × List Effect :=
  match s.instagram_business_account_id with
  | none =>
      (.error ⟨"Instagram business account ID not configured", none, none⟩, [])
  | some account_id =>
    let validated : Except InstagramAPIError Unit × List Effect :=
      match request.image_url with
      | some u => (_validate_image_aspect_ratio fetch, [.imageFetch u])
      | none => (.ok (), [])
    match validated with
    | (.error e, eff) =>
        (.error ⟨"Failed to publish media: " ++ e.message, none, none⟩, eff)
    | (.ok (), eff0) =>
      let container_data := [("caption", request.caption.getD "")]
      match (match request.image_url, request.video_url with
             | some iu, _ => .ok (container_data ++ [("image_url", iu)])
             | none, some vu => .ok (container_data ++ [("video_url", vu)])
             | none, none =>
                 .error ⟨"Either image_url or video_url is required", none,
                   none⟩ :
             Except InstagramAPIError (List (String × String))) with
      | .error e =>
          (.error ⟨"Failed to publish media: " ++ e.message, none, none⟩, eff0)
      | .ok cdata0 =>
        let cdata := cdata0 ++
          (match request.location_id with
           | some l => [("location_id", l)]
           | none => [])
        let createRes := make_request s now cache "POST"
          (account_id ++ "/media") [] (some cdata) true false createOutcome
        match createRes.result with
        | .error e =>
            (.error ⟨"Failed to publish media: " ++ e.message, none, none⟩,
             eff0 ++ createRes.effects)
        | .ok container_id =>
          let publish_data := [("creation_id", container_id)]
          let publishRes := make_request s now createRes.cache "POST"
            (account_id ++ "/media_publish") [] (some publish_data) true false
            publishOutcome
          match publishRes.result with
          | .error e =>
              (.error ⟨"Failed to publish media: " ++ e.message, none, none⟩,
               eff0 ++ createRes.effects ++ publishRes.effects)
          | .ok publish_id =>
              (.ok ⟨publish_id, "published"⟩,
               eff0 ++ createRes.effects ++ publishRes.effects)

/-! ## Conversation / messaging operations -/

/-- The remediation text appended when an error is detected as an
Advanced-Access permission failure (leading warning/book glyphs of the
source string omitted). -/
def ADVANCED_ACCESS_REMEDIATION : String :=
  "\n\nThis error indicates that instagram_manage_messages permission requires Advanced Access from Meta via App Review. \nSee INSTAGRAM_DM_SETUP.md for the complete approval process."

/-- The Advanced-Access detection of `get_conversations` and
`get_conversation_messages`: the message contains the substring `"#2"`,
or its lower-casing contains `"unavailable"` or `"temporarily"`.
The numeric error code is never inspected. -/
def dm_error_detected (error_msg : String) : Bool :=
  strContains error_msg "#2" || strContains (pyLower error_msg) "unavailable" ||
    strContains (pyLower error_msg) "temporarily"

/-- The `except InstagramAPIError` handler of `get_conversations` and of
`get_conversation_messages`: append the remediation text when the
detection fires, then re-raise with the (possibly augmented) message only. -/
def dm_error_message (error_msg : String) : String :=
  if dm_error_detected error_msg then error_msg ++ ADVANCED_ACCESS_REMEDIATION
  else error_msg

/-- The `fields` string of `get_conversations`. -/
def CONVERSATION_FIELDS : String := "id,updated_time,message_count"

/-- The query parameters built by `get_conversations`. -/
def get_conversations_params (limit : Int) : List (String × String) :=
  [("platform", "instagram"), ("fields", CONVERSATION_FIELDS),
   ("limit", toString (min limit 100))]

/-- `InstagramClient.get_conversations`.  When no page id is supplied the
source resolves one via `get_account_pages`; the parsed page ids of that
call are supplied here as `pages` (the no-pages error is raised before the
`try` block).  Messaging goes to the Facebook host.  An
`InstagramAPIError` from the dispatcher is re-raised through
`dm_error_message` with code and subcode dropped; any other exception is
wrapped with a `"Failed to get conversations: "` prefix. -/
def get_conversations (s : Settings) (now : Nat) (cache : Cache)
    (page_id : Option String) (pages : List String) (limit : Int)
    (outcome : HttpOutcome) : Except InstagramAPIError String :=
  match page_id.orElse (fun _ => pages.head?) with
  | none =>
      .error ⟨"No Facebook pages found. Please connect a Facebook page to your Instagram account.", none, none⟩
  | some pid =>
    match (make_request s now cache "GET" (pid ++ "/conversations")
        (get_conversations_params limit) none true true outcome).result with
    | .ok d => .ok d
    | .error (.valueError m) =>
        .error ⟨"Failed to get conversations: " ++ m, none, none⟩
    | .error e => .error ⟨dm_error_message e.message, none, none⟩

/-- The `fields` string of `get_conversation_messages`. -/
def MESSAGE_FIELDS : String := "id,from,to,message,created_time,attachments"

/-- The query parameters built by `get_conversation_messages`
(`f"messages{{" + fields + "}}"`). -/
def get_conversation_messages_params (limit : Int) : List (String × String) :=
  [("fields", "messages\x7b" ++ MESSAGE_FIELDS ++ "\x7d"),
   ("limit", toString (min limit 100))]

/-- `InstagramClient.get_conversation_messages` (parsed message list
modelled as the raw success payload). -/
def get_conversation_messages (s : Settings) (now : Nat) (cache : Cache)
    (conversation_id : String) (limit : Int) (outcome : HttpOutcome) :
    Except InstagramAPIError String :=
  match (make_request s now cache "GET" conversation_id
      (get_conversation_messages_params limit) none true true outcome).result with
  | .ok d => .ok d
  | .error (.valueError m) =>
      .error ⟨"Failed to get conversation messages: " ++ m, none, none⟩
  | .error e => .error ⟨dm_error_message e.message, none, none⟩

/-- `SendDMRequest`: the fields the client reads. -/
structure SendDMRequest where
  recipient_id : String
  message : String
deriving Repr, DecidableEq

/-- `SendDMResponse` as constructed by `send_dm`. -/
structure SendDMResponse where
  message_id : String
  recipient_id : String
  success : Bool
deriving Repr, DecidableEq

/-- The Advanced-Access detection of `send_dm`: the three conditions of
`dm_error_detected` plus lower-cased `"permissions"` or `"access"`. -/
def send_dm_error_detected (error_msg : String) : Bool :=
  strContains error_msg "#2" || strContains (pyLower error_msg) "unavailable" ||
    strContains (pyLower error_msg) "temporarily" ||
    strContains (pyLower error_msg) "permissions" ||
    strContains (pyLower error_msg) "access"

/-- The `except InstagramAPIError` handler of `send_dm`. -/
def send_dm_error_message (error_msg : String) : String :=
  if send_dm_error_detected error_msg then
    error_msg ++ ADVANCED_ACCESS_REMEDIATION
  else error_msg

/-- `InstagramClient.send_dm`.  The nested `recipient`/`message` JSON body
is modelled as a flat association list; the success payload stands for
`data.get("message_id", "")`. -/
def send_dm (s : Settings) (now : Nat) (cache : Cache)
    (request : SendDMRequest) (outcome : HttpOutcome) :
    Except InstagramAPIError SendDMResponse :=
  let message_data :=
    [("recipient", request.recipient_id), ("message", request.message)]
  match (make_request s now cache "POST" "me/messages" [] (some message_data)
      true true outcome).result with
  | .ok d => .ok ⟨d, request.recipient_id, true⟩
  | .error (.valueError m) =>
      .error ⟨"Failed to send DM: " ++ m, none, none⟩
  | .error e => .error ⟨send_dm_error_message e.message, none, none⟩

/-- A concrete settings value used by witnesses and counterexamples:
caching enabled, TTL 300 seconds (the configuration defaults). -/
def sampleSettings : Settings :=
  ⟨"tok", some "17841400000000000", "https://graph.facebook.com", "v19.0",
   200, true, 300⟩

/-! ## Helper lemmas -/

theorem sortedParams_perm {ps qs : List (String × String)} (h : ps.Perm qs) :
    sortedParams ps = sortedParams qs :=
  List.eq_of_perm_of_sorted
    ((List.perm_insertionSort pairLe ps).trans
      (h.trans (List.perm_insertionSort pairLe qs).symm))
    (List.sorted_insertionSort pairLe ps)
    (List.sorted_insertionSort pairLe qs)

theorem get_cache_key_perm (endpoint : String)
    {ps qs : List (String × String)} (h : ps.Perm qs) :
    _get_cache_key endpoint ps = _get_cache_key endpoint qs := by
  unfold _get_cache_key
  rw [sortedParams_perm h]

theorem dictSet_perm {α : Type} {ps qs : List (String × α)} (h : ps.Perm qs)
    (k : String) (v : α) : (dictSet ps k v).Perm (dictSet qs k v) :=
  (h.filter _).append_right _

theorem dictGet_dictSet_self {α : Type} (m : List (String × α)) (k : String)
    (v : α) : dictGet (dictSet m k v) k = some v := by
  induction m with
  | nil => simp [dictGet, dictSet]
  | cons p t ih =>
    by_cases h : p.1 = k
    · simp [dictGet, dictSet, h]
    · simp [dictGet, dictSet, h, List.find?]

/-- Computation rule for `make_request` on a `GET` that misses the cache:
the throttler is acquired, the HTTP call is issued, and the outcome is
translated; a success payload is stored in the cache. -/
theorem make_request_get_miss (s : Settings) (now : Nat) (cache : Cache)
    (endpoint : String) (params : List (String × String))
    (data : Option (List (String × String))) (ufa : Bool) (o : HttpOutcome)
    (hmiss : cache_get s now cache (request_cache_key s endpoint params) = none) :
    make_request s now cache "GET" endpoint params data true ufa o =
      let url := (if ufa then "https://graph.facebook.com/v22.0"
                  else s.instagram_api_url) ++ "/" ++ endpoint
      let params2 := dictSet params "access_token" s.instagram_access_token
      let effects : List Effect :=
        [.throttlerAcquire, .httpCall "GET" url params2 data]
      match o with
      | .httpStatus429 =>
          ⟨.error (.rateLimitExceeded
            ⟨"Instagram API rate limit exceeded", none, none⟩), effects, cache⟩
      | .errorEnvelope msg code sub =>
          ⟨.error (.apiError ⟨msg.getD "Unknown error", code, sub⟩),
           effects, cache⟩
      | .okPayload d =>
          ⟨.ok d, effects,
           _cache_response s now cache (request_cache_key s endpoint params) d⟩
      | .transportError m =>
          ⟨.error (.apiError ⟨"HTTP request failed: " ++ m, none, none⟩),
           effects, cache⟩
      | .jsonDecodeError m =>
          ⟨.error (.apiError ⟨"Invalid JSON response: " ++ m, none, none⟩),
           effects, cache⟩ := by
  unfold request_cache_key at hmiss
  simp only [make_request]
  rw [hmiss, show (pyUpper "GET" == "GET" && true) = true from rfl,
      show (pyUpper "GET" == "GET" || pyUpper "GET" == "POST") = true from rfl]
  cases o <;> simp [request_cache_key]

/-- Computation rule for `make_request` on a `POST`: the cache is neither
consulted nor written. -/
theorem make_request_post (s : Settings) (now : Nat) (cache : Cache)
    (endpoint : String) (params : List (String × String))
    (data : Option (List (String × String))) (ufa : Bool) (o : HttpOutcome) :
    make_request s now cache "POST" endpoint params data true ufa o =
      let url := (if ufa then "https://graph.facebook.com/v22.0"
                  else s.instagram_api_url) ++ "/" ++ endpoint
      let params2 := dictSet params "access_token" s.instagram_access_token
      let effects : List Effect :=
        [.throttlerAcquire, .httpCall "POST" url params2 data]
      match o with
      | .httpStatus429 =>
          ⟨.error (.rateLimitExceeded
            ⟨"Instagram API rate limit exceeded", none, none⟩), effects, cache⟩
      | .errorEnvelope msg code sub =>
          ⟨.error (.apiError ⟨msg.getD "Unknown error", code, sub⟩),
           effects, cache⟩
      | .okPayload d => ⟨.ok d, effects, cache⟩
      | .transportError m =>
          ⟨.error (.apiError ⟨"HTTP request failed: " ++ m, none, none⟩),
           effects, cache⟩
      | .jsonDecodeError m =>
          ⟨.error (.apiError ⟨"Invalid JSON response: " ++ m, none, none⟩),
           effects, cache⟩ := by
  cases o <;> rfl

/-! ## C9: cache-key stability under parameter permutation -/

/-- C9: for every logical endpoint and every two parameter lists that are
permutations of each other, `_get_cache_key` produces the same cache key:
the key is invariant under parameter-order permutation. -/
theorem cache_key_param_order_invariant (endpoint : String)
    (ps qs : List (String × String)) (h : ps.Perm qs) :
    _get_cache_key endpoint ps = _get_cache_key endpoint qs :=
  get_cache_key_perm endpoint h

/-- Witness for C9 at the parameter maps of the spec:
`{a:1, b:2}` versus `{b:2, a:1}`. -/
theorem cache_key_param_order_invariant_witness :
    _get_cache_key "media" [("a", "1"), ("b", "2")] =
      _get_cache_key "media" [("b", "2"), ("a", "1")] :=
  cache_key_param_order_invariant "media" _ _ (List.Perm.swap ("b", "2") ("a", "1") [])

/-! ## C1: the access token and the dispatcher's cache key -/

/-- C1 counterexample: `_make_request` assigns `access_token` into `params`
*before* computing the cache key, so two dispatches of the same read
request that differ only in the access token produce *different* cache
keys — the token is part of the key. -/
theorem cache_key_token_counterexample :
    request_cache_key
        ⟨"token-A", none, "https://graph.facebook.com", "v19.0", 200, true, 300⟩
        "me" [("fields", "id")] ≠
      request_cache_key
        ⟨"token-B", none, "https://graph.facebook.com", "v19.0", 200, true, 300⟩
        "me" [("fields", "id")] := by
  decide

/-- C1 (amended): the cache key `_make_request` computes is a
deterministic function of the logical endpoint and the canonicalized query
parameters *including* the injected access token: with the token fixed it
is stable under parameter-order permutation, and it equals the key of the
token-extended parameter list. -/
theorem cache_key_includes_access_token (s : Settings) (endpoint : String)
    (ps qs : List (String × String)) (h : ps.Perm qs) :
    request_cache_key s endpoint ps = request_cache_key s endpoint qs ∧
    request_cache_key s endpoint ps =
      _get_cache_key endpoint
        (dictSet ps "access_token" s.instagram_access_token) :=
  ⟨get_cache_key_perm endpoint (dictSet_perm h _ _), rfl⟩

/-! ## C7: cache hits touch neither the limiter nor the network -/

/-- C7: for every read request with caching enabled whose computed key has
a valid cache entry, `_make_request` returns the cached value with an
empty effect trace (no throttler acquisition, no HTTP call) and leaves the
cache unchanged. -/
theorem cache_hit_frame (s : Settings) (now : Nat) (cache : Cache)
    (method endpoint : String) (params : List (String × String))
    (data : Option (List (String × String))) (ufa : Bool)
    (outcome : HttpOutcome) (v : String)
    (hm : pyUpper method = "GET")
    (hv : cache_get s now cache (request_cache_key s endpoint params) = some v) :
    make_request s now cache method endpoint params data true ufa outcome =
      ⟨.ok v, [], cache⟩ := by
  unfold request_cache_key at hv
  simp only [make_request, hm]
  rw [show ("GET" == "GET" && true) = true from rfl, hv]
  rfl

/-- Witness for C7: a concrete valid cache entry is returned unchanged even
though the network oracle would fail the request. -/
theorem cache_hit_frame_witness :
    make_request
        ⟨"tok", none, "https://graph.facebook.com", "v19.0", 200, true, 300⟩ 5
        [("me?access_token=tok&fields=id", ⟨"cached-profile", 10, 0⟩)]
        "GET" "me" [("fields", "id")] none true false
        (.transportError "net down") =
      ⟨.ok "cached-profile", [],
       [("me?access_token=tok&fields=id", ⟨"cached-profile", 10, 0⟩)]⟩ :=
  cache_hit_frame _ _ _ _ _ _ _ _ _ _ (by decide) (by decide)

/-! ## C6: cache TTL semantics -/

/-- C6: with caching enabled, a value stored at time `t0` with the
configured TTL is returned by a cache read at any elapsed time `t` smaller
than the TTL, and misses at any elapsed time `t ≥` TTL. -/
theorem cache_ttl (s : Settings) (cache : Cache) (k v : String) (t0 t : Nat)
    (henabled : s.cache_enabled = true) :
    (t < s.cache_ttl_seconds →
      cache_get s (t0 + t) (_cache_response s t0 cache k v) k = some v) ∧
    (s.cache_ttl_seconds ≤ t →
      cache_get s (t0 + t) (_cache_response s t0 cache k v) k = none) := by
  unfold _cache_response
  rw [henabled]
  simp only [if_true]
  constructor
  · intro ht
    have hlt : t0 + t < t0 + s.cache_ttl_seconds := by omega
    unfold cache_get
    rw [dictGet_dictSet_self]
    simp [_is_cache_valid, henabled, hlt]
  · intro ht
    have hge : ¬ t0 + t < t0 + s.cache_ttl_seconds := by omega
    unfold cache_get
    rw [dictGet_dictSet_self]
    simp [_is_cache_valid, henabled, hge]

/-- Witness for C6 with TTL 300: a read 5 seconds after the put hits, a
read exactly 300 seconds after the put misses. -/
theorem cache_ttl_witness :
    cache_get ⟨"tok", none, "https://graph.facebook.com", "v19.0", 200, true, 300⟩
        (0 + 5)
        (_cache_response
          ⟨"tok", none, "https://graph.facebook.com", "v19.0", 200, true, 300⟩
          0 [] "k" "v") "k" = some "v" ∧
    cache_get ⟨"tok", none, "https://graph.facebook.com", "v19.0", 200, true, 300⟩
        (0 + 300)
        (_cache_response
          ⟨"tok", none, "https://graph.facebook.com", "v19.0", 200, true, 300⟩
          0 [] "k" "v") "k" = none :=
  ⟨(cache_ttl _ [] "k" "v" 0 5 rfl).1 (by decide),
   (cache_ttl _ [] "k" "v" 0 300 rfl).2 (by decide)⟩

/-- Witness for C1's amended theorem at a concrete permutation. -/
theorem cache_key_includes_access_token_witness :
    request_cache_key
        ⟨"tok", none, "https://graph.facebook.com", "v19.0", 200, true, 300⟩
        "media" [("a", "1"), ("b", "2")] =
      request_cache_key
        ⟨"tok", none, "https://graph.facebook.com", "v19.0", 200, true, 300⟩
        "media" [("b", "2"), ("a", "1")] :=
  (cache_key_includes_access_token _ "media" _ _
    (List.Perm.swap ("b", "2") ("a", "1") [])).1

/-! ## C10: page-size clamping -/

/-- C10: for every requested limit `n`, the `limit` query parameter built
by `get_media_posts`, `get_conversations` and `get_conversation_messages`
is `min(n, 100)`; in particular page sizes above 100 are clamped to 100. -/
theorem limit_clamped_to_100 (n : Int) (after : Option String) :
    dictGet (get_media_posts_params n after) "limit" =
      some (toString (min n 100)) ∧
    dictGet (get_conversations_params n) "limit" =
      some (toString (min n 100)) ∧
    dictGet (get_conversation_messages_params n) "limit" =
      some (toString (min n 100)) ∧
    (100 < n → toString (min n 100) = "100") := by
  refine ⟨?_, rfl, rfl, ?_⟩
  · cases after <;> rfl
  · intro h
    rw [min_eq_right h.le]
    rfl

/-- Witness for C10: a requested page size of 250 is clamped to 100. -/
theorem limit_clamped_to_100_witness : toString (min (250 : Int) 100) = "100" :=
  (limit_clamped_to_100 250 none).2.2.2 (by decide)

/-! ## C2: Advanced-Access error classification -/

/-- C2 counterexample: a remote error whose numeric code is `2` but whose
message contains neither `"#2"` nor `"unavailable"`/`"temporarily"` is
surfaced by `get_conversations` *without* any remediation text — the
numeric code is never inspected, only message substrings are. -/
theorem remediation_code2_counterexample :
    get_conversations sampleSettings 0 [] (some "page-1") [] 25
        (.errorEnvelope (some "Something went wrong") (some 2) none) =
      .error ⟨"Something went wrong", none, none⟩ ∧
    strContains "Something went wrong" "Advanced Access" = false := by
  exact ⟨by decide, by decide⟩

theorem send_dm_detected_of_dm {msg : String}
    (h : dm_error_detected msg = true) : send_dm_error_detected msg = true := by
  unfold dm_error_detected at h
  unfold send_dm_error_detected
  simp only [Bool.or_eq_true] at h ⊢
  tauto

/-- C2 (amended): whenever the surfaced message contains the substring
`"#2"`, or its lower-casing contains `"unavailable"` or `"temporarily"`,
the three messaging operations (`get_conversations`,
`get_conversation_messages`, `send_dm`) re-raise the error with the
remediation text appended to the original message (and the numeric
code/subcode dropped); the numeric code is not consulted, and the
non-messaging operations do not append remediation. -/
theorem remediation_on_substring_match (s : Settings) (now : Nat)
    (cache : Cache) (pid cid : String) (req : SendDMRequest) (limit : Int)
    (msg : String) (code sub : Option Int)
    (hdet : dm_error_detected msg = true)
    (h1 : cache_get s now cache
      (request_cache_key s (pid ++ "/conversations")
        (get_conversations_params limit)) = none)
    (h2 : cache_get s now cache
      (request_cache_key s cid (get_conversation_messages_params limit)) = none) :
    get_conversations s now cache (some pid) [] limit
        (.errorEnvelope (some msg) code sub) =
      .error ⟨msg ++ ADVANCED_ACCESS_REMEDIATION, none, none⟩ ∧
    get_conversation_messages s now cache cid limit
        (.errorEnvelope (some msg) code sub) =
      .error ⟨msg ++ ADVANCED_ACCESS_REMEDIATION, none, none⟩ ∧
    send_dm s now cache req (.errorEnvelope (some msg) code sub) =
      .error ⟨msg ++ ADVANCED_ACCESS_REMEDIATION, none, none⟩ := by
  refine ⟨?_, ?_, ?_⟩
  · have e1 : get_conversations s now cache (some pid) [] limit
        (.errorEnvelope (some msg) code sub) =
        (match (make_request s now cache "GET" (pid ++ "/conversations")
            (get_conversations_params limit) none true true
            (.errorEnvelope (some msg) code sub)).result with
         | .ok d => .ok d
         | .error (.valueError m) =>
             .error ⟨"Failed to get conversations: " ++ m, none, none⟩
         | .error e => .error ⟨dm_error_message e.message, none, none⟩) := rfl
    rw [e1, make_request_get_miss _ _ _ _ _ _ _ _ h1]
    simp [dm_error_message, ClientError.message, hdet]
  · have e2 : get_conversation_messages s now cache cid limit
        (.errorEnvelope (some msg) code sub) =
        (match (make_request s now cache "GET" cid
            (get_conversation_messages_params limit) none true true
            (.errorEnvelope (some msg) code sub)).result with
         | .ok d => .ok d
         | .error (.valueError m) =>
             .error ⟨"Failed to get conversation messages: " ++ m, none, none⟩
         | .error e => .error ⟨dm_error_message e.message, none, none⟩) := rfl
    rw [e2, make_request_get_miss _ _ _ _ _ _ _ _ h2]
    simp [dm_error_message, ClientError.message, hdet]
  · have e3 : send_dm s now cache req (.errorEnvelope (some msg) code sub) =
        (match (make_request s now cache "POST" "me/messages" []
            (some [("recipient", req.recipient_id), ("message", req.message)])
            true true (.errorEnvelope (some msg) code sub)).result with
         | .ok d => .ok ⟨d, req.recipient_id, true⟩
         | .error (.valueError m) =>
             .error ⟨"Failed to send DM: " ++ m, none, none⟩
         | .error e =>
             .error ⟨send_dm_error_message e.message, none, none⟩) := rfl
    rw [e3, make_request_post]
    simp [send_dm_error_message, ClientError.message, send_dm_detected_of_dm hdet]

/-- Witness for C2's amended theorem at the error of the spec's
deterministic-classification example: `{message: "This feature is
temporarily unavailable", code: 2}` receives remediation text on all three
messaging operations. -/
theorem remediation_on_substring_match_witness :
    get_conversations sampleSettings 0 [] (some "page-1") [] 25
        (.errorEnvelope (some "This feature is temporarily unavailable")
          (some 2) none) =
      .error ⟨"This feature is temporarily unavailable" ++
        ADVANCED_ACCESS_REMEDIATION, none, none⟩ ∧
    get_conversation_messages sampleSettings 0 [] "conv-1" 25
        (.errorEnvelope (some "This feature is temporarily unavailable")
          (some 2) none) =
      .error ⟨"This feature is temporarily unavailable" ++
        ADVANCED_ACCESS_REMEDIATION, none, none⟩ ∧
    send_dm sampleSettings 0 [] ⟨"user-9", "hi"⟩
        (.errorEnvelope (some "This feature is temporarily unavailable")
          (some 2) none) =
      .error ⟨"This feature is temporarily unavailable" ++
        ADVANCED_ACCESS_REMEDIATION, none, none⟩ :=
  remediation_on_substring_match sampleSettings 0 [] "page-1" "conv-1"
    ⟨"user-9", "hi"⟩ 25 "This feature is temporarily unavailable" (some 2) none
    (by decide) rfl rfl

/-! ## C4: propagation of structured remote errors -/

/-- C4 counterexample: a structured remote error
`{message: "Invalid parameter", code: 100}` surfaced through
`get_profile_info` is re-wrapped: the caller receives the prefixed
message with the original code and subcode dropped (`None`), not an error
carrying the original message/code/subcode. -/
theorem remote_error_code_dropped_counterexample :
    get_profile_info sampleSettings 0 [] (some "17841400000000000")
        (.errorEnvelope (some "Invalid parameter") (some 100) none) =
      .error ⟨"Failed to get profile info: Invalid parameter", none, none⟩ ∧
    (∀ e : InstagramAPIError,
      get_profile_info sampleSettings 0 [] (some "17841400000000000")
          (.errorEnvelope (some "Invalid parameter") (some 100) none) =
        .error e →
      e.error_code = none ∧ e.message ≠ "Invalid parameter") := by
  have h0 : get_profile_info sampleSettings 0 [] (some "17841400000000000")
      (.errorEnvelope (some "Invalid parameter") (some 100) none) =
      .error ⟨"Failed to get profile info: Invalid parameter", none, none⟩ := by
    decide
  refine ⟨h0, ?_⟩
  intro e he
  rw [h0] at he
  injection he with h
  rw [← h]
  exact ⟨rfl, by decide⟩

/-- C4 (amended): for a structured remote error not classified as
throttling, `_make_request` raises an `InstagramAPIError` carrying the
original message, code and subcode, and nothing is swallowed; but the
public operation `get_profile_info` re-wraps it, so its caller receives
`"Failed to get profile info: " ++ message` with code and subcode
dropped. -/
theorem remote_error_propagation (s : Settings) (now : Nat) (cache : Cache)
    (acc msg : String) (code sub : Option Int)
    (hmiss : cache_get s now cache
      (request_cache_key s acc [("fields", PROFILE_FIELDS)]) = none) :
    (make_request s now cache "GET" acc [("fields", PROFILE_FIELDS)] none true
        false (.errorEnvelope (some msg) code sub)).result =
      .error (.apiError ⟨msg, code, sub⟩) ∧
    get_profile_info s now cache (some acc)
        (.errorEnvelope (some msg) code sub) =
      .error ⟨"Failed to get profile info: " ++ msg, none, none⟩ := by
  have hmr := make_request_get_miss s now cache acc [("fields", PROFILE_FIELDS)]
    none false (.errorEnvelope (some msg) code sub) hmiss
  constructor
  · rw [hmr]
    rfl
  · have e1 : get_profile_info s now cache (some acc)
        (.errorEnvelope (some msg) code sub) =
        (match (make_request s now cache "GET" acc [("fields", PROFILE_FIELDS)]
            none true false (.errorEnvelope (some msg) code sub)).result with
         | .ok d => .ok d
         | .error e =>
             .error ⟨"Failed to get profile info: " ++ e.message, none,
               none⟩) := rfl
    rw [e1, hmr]
    rfl

/-- Witness for C4's amended theorem at the spec's example
`{message: "Invalid parameter", code: 100}`. -/
theorem remote_error_propagation_witness :
    (make_request sampleSettings 0 [] "GET" "17841400000000000"
        [("fields", PROFILE_FIELDS)] none true false
        (.errorEnvelope (some "Invalid parameter") (some 100) none)).result =
      .error (.apiError ⟨"Invalid parameter", some 100, none⟩) ∧
    get_profile_info sampleSettings 0 [] (some "17841400000000000")
        (.errorEnvelope (some "Invalid parameter") (some 100) none) =
      .error ⟨"Failed to get profile info: Invalid parameter", none, none⟩ :=
  remote_error_propagation sampleSettings 0 [] "17841400000000000"
    "Invalid parameter" (some 100) none rfl

/-! ## C5 and C3: the publish workflow -/

theorem string_ne_of_data_ne {x y : String} (h : x.data ≠ y.data) : x ≠ y :=
  fun hc => h (congrArg String.data hc)

/-- The publish-commit URL differs from the container-create URL. -/
theorem media_publish_url_ne (base acc : String) :
    base ++ "/" ++ (acc ++ "/media_publish") ≠ base ++ "/" ++ (acc ++ "/media") := by
  apply string_ne_of_data_ne
  intro h
  simp only [String.data_append, List.append_assoc] at h
  have h1 := List.append_cancel_left h
  have h2 := List.append_cancel_left h1
  have h3 := List.append_cancel_left h2
  exact absurd h3 (by decide)

/-- C5: with an account configured, a successful publish issues exactly
one container-create POST followed by exactly one publish-commit POST, in
that order; and whenever the container-create outcome is not a success,
the publish-commit request is never issued. -/
theorem publish_ordering (s : Settings) (now : Nat) (cache : Cache)
    (req : PublishMediaRequest) (fetch : Except String (Nat × Nat))
    (cOut pOut : HttpOutcome) (acc : String)
    (hacc : s.instagram_business_account_id = some acc) :
    ((publish_media s now cache req fetch cOut pOut).1.isOk = true →
      httpCalls (publish_media s now cache req fetch cOut pOut).2 =
        [("POST", s.instagram_api_url ++ "/" ++ (acc ++ "/media")),
         ("POST", s.instagram_api_url ++ "/" ++ (acc ++ "/media_publish"))]) ∧
    ((∀ d, cOut ≠ .okPayload d) →
      ("POST", s.instagram_api_url ++ "/" ++ (acc ++ "/media_publish")) ∉
        httpCalls (publish_media s now cache req fetch cOut pOut).2) := by
  constructor
  · intro hok
    cases hi : req.image_url with
    | none =>
      cases hv : req.video_url with
      | none => simp [publish_media, hacc, hi, hv, Except.isOk, Except.toBool] at hok
      | some vu =>
        cases cOut <;> cases pOut <;>
          simp_all [publish_media, hacc, make_request_post, httpCalls,
            Except.isOk, Except.toBool]
    | some u =>
      cases hval : _validate_image_aspect_ratio fetch with
      | error e => simp [publish_media, hacc, hi, hval, Except.isOk, Except.toBool] at hok
      | ok u' =>
        cases cOut <;> cases pOut <;>
          simp_all [publish_media, hacc, make_request_post, httpCalls,
            Except.isOk, Except.toBool]
  · intro hne
    cases hi : req.image_url with
    | none =>
      cases hv : req.video_url with
      | none => simp [publish_media, hacc, hi, hv, httpCalls]
      | some vu =>
        cases cOut with
        | okPayload d => exact absurd rfl (hne d)
        | transportError m =>
          simp [publish_media, hacc, hi, hv, make_request_post, httpCalls]
          exact fun h => absurd h (media_publish_url_ne _ _)
        | httpStatus429 =>
          simp [publish_media, hacc, hi, hv, make_request_post, httpCalls]
          exact fun h => absurd h (media_publish_url_ne _ _)
        | jsonDecodeError m =>
          simp [publish_media, hacc, hi, hv, make_request_post, httpCalls]
          exact fun h => absurd h (media_publish_url_ne _ _)
        | errorEnvelope m c su =>
          simp [publish_media, hacc, hi, hv, make_request_post, httpCalls]
          exact fun h => absurd h (media_publish_url_ne _ _)
    | some u =>
      cases hval : _validate_image_aspect_ratio fetch with
      | error e => simp [publish_media, hacc, hi, hval, httpCalls]
      | ok u' =>
        cases cOut with
        | okPayload d => exact absurd rfl (hne d)
        | transportError m =>
          simp [publish_media, hacc, hi, hval, make_request_post, httpCalls]
          exact fun h => absurd h (media_publish_url_ne _ _)
        | httpStatus429 =>
          simp [publish_media, hacc, hi, hval, make_request_post, httpCalls]
          exact fun h => absurd h (media_publish_url_ne _ _)
        | jsonDecodeError m =>
          simp [publish_media, hacc, hi, hval, make_request_post, httpCalls]
          exact fun h => absurd h (media_publish_url_ne _ _)
        | errorEnvelope m c su =>
          simp [publish_media, hacc, hi, hval, make_request_post, httpCalls]
          exact fun h => absurd h (media_publish_url_ne _ _)

/-- Witness for C5: a successful video publish issues exactly the
create-then-commit pair, and a failing create issues no commit. -/
theorem publish_ordering_witness :
    httpCalls (publish_media sampleSettings 0 []
        ⟨none, some "https://cdn.example/v.mp4", some "cap", none⟩
        (.error "unused") (.okPayload "container-1")
        (.okPayload "post-9")).2 =
      [("POST", "https://graph.facebook.com/v19.0/17841400000000000/media"),
       ("POST",
        "https://graph.facebook.com/v19.0/17841400000000000/media_publish")] ∧
    ("POST", "https://graph.facebook.com/v19.0" ++ "/" ++
        ("17841400000000000" ++ "/media_publish")) ∉
      httpCalls (publish_media sampleSettings 0 []
        ⟨none, some "https://cdn.example/v.mp4", some "cap", none⟩
        (.error "unused") (.errorEnvelope (some "boom") (some 100) none)
        (.okPayload "post-9")).2 :=
  ⟨by
    have h := (publish_ordering sampleSettings 0 []
      ⟨none, some "https://cdn.example/v.mp4", some "cap", none⟩
      (.error "unused") (.okPayload "container-1") (.okPayload "post-9")
      "17841400000000000" rfl).1 (by decide)
    simpa using h,
   (publish_ordering sampleSettings 0 []
      ⟨none, some "https://cdn.example/v.mp4", some "cap", none⟩
      (.error "unused") (.errorEnvelope (some "boom") (some 100) none)
      (.okPayload "post-9") "17841400000000000" rfl).2
     (by intro d h; cases h)⟩

/-- C3 counterexample: a publish run failing at the container-create phase
and a publish run failing at the publish-commit phase surface the *same*
error (`"Failed to publish media: X"`, no code, no subcode) even though
their request traces differ — the surfaced error does not identify the
phase at which the failure occurred. -/
theorem publish_error_phase_counterexample :
    (publish_media sampleSettings 0 []
        ⟨none, some "https://cdn.example/v.mp4", some "cap", none⟩
        (.error "unused") (.errorEnvelope (some "X") (some 100) none)
        (.okPayload "ignored")).1 =
      .error ⟨"Failed to publish media: X", none, none⟩ ∧
    (publish_media sampleSettings 0 []
        ⟨none, some "https://cdn.example/v.mp4", some "cap", none⟩
        (.error "unused") (.okPayload "container-1")
        (.errorEnvelope (some "X") (some 100) none)).1 =
      .error ⟨"Failed to publish media: X", none, none⟩ ∧
    httpCalls (publish_media sampleSettings 0 []
        ⟨none, some "https://cdn.example/v.mp4", some "cap", none⟩
        (.error "unused") (.errorEnvelope (some "X") (some 100) none)
        (.okPayload "ignored")).2 ≠
      httpCalls (publish_media sampleSettings 0 []
        ⟨none, some "https://cdn.example/v.mp4", some "cap", none⟩
        (.error "unused") (.okPayload "container-1")
        (.errorEnvelope (some "X") (some 100) none)).2 := by
  exact ⟨by decide, by decide, by decide⟩

/-- C3 (amended): with an account configured, every failing publish run
surfaces an `InstagramAPIError` whose message is `"Failed to publish
media: "` prefixed to the underlying failure's message and whose code and
subcode are `None`; no phase marker is attached. -/
theorem publish_error_wrapped_without_phase (s : Settings) (now : Nat)
    (cache : Cache) (req : PublishMediaRequest)
    (fetch : Except String (Nat × Nat)) (cOut pOut : HttpOutcome)
    (acc : String) (e : InstagramAPIError)
    (hacc : s.instagram_business_account_id = some acc)
    (he : (publish_media s now cache req fetch cOut pOut).1 = .error e) :
    e.error_code = none ∧ e.error_subcode = none ∧
    ∃ m, e.message = "Failed to publish media: " ++ m := by
  cases hi : req.image_url with
  | none =>
    cases hv : req.video_url with
    | none =>
      simp only [publish_media, hacc, hi, hv] at he
      injection he with h
      exact h ▸ ⟨rfl, rfl, _, rfl⟩
    | some vu =>
      cases cOut <;> cases pOut <;>
        simp only [publish_media, hacc, hi, hv, make_request_post,
          ClientError.message] at he <;>
        first
        | (injection he with h
           exact h ▸ ⟨rfl, rfl, _, rfl⟩)
        | injection he
  | some u =>
    cases hval : _validate_image_aspect_ratio fetch with
    | error e2 =>
      simp only [publish_media, hacc, hi, hval] at he
      injection he with h
      exact h ▸ ⟨rfl, rfl, _, rfl⟩
    | ok u' =>
      cases cOut <;> cases pOut <;>
        simp only [publish_media, hacc, hi, hval, make_request_post,
          ClientError.message] at he <;>
        first
        | (injection he with h
           exact h ▸ ⟨rfl, rfl, _, rfl⟩)
        | injection he

/-- Witness for C3's amended theorem at a concrete create-phase failure. -/
theorem publish_error_wrapped_without_phase_witness :
    (⟨"Failed to publish media: X", none, none⟩
        : InstagramAPIError).error_code = none ∧
    (⟨"Failed to publish media: X", none, none⟩
        : InstagramAPIError).error_subcode = none ∧
    ∃ m, (⟨"Failed to publish media: X", none, none⟩
        : InstagramAPIError).message = "Failed to publish media: " ++ m :=
  publish_error_wrapped_without_phase sampleSettings 0 []
    ⟨none, some "https://cdn.example/v.mp4", some "cap", none⟩
    (.error "unused") (.errorEnvelope (some "X") (some 100) none)
    (.okPayload "ignored") "17841400000000000"
    ⟨"Failed to publish media: X", none, none⟩ rfl (by decide)

/-! ## C8: image aspect-ratio gate -/

theorem validate_ok_iff (w h : Nat) :
    _validate_image_aspect_ratio (.ok (w, h)) = .ok () ↔
      ((0.78 : ℚ) ≤ (w : ℚ) / (h : ℚ) ∧ (w : ℚ) / (h : ℚ) ≤ 0.82) ∨
      ((0.98 : ℚ) ≤ (w : ℚ) / (h : ℚ) ∧ (w : ℚ) / (h : ℚ) ≤ 1.02) ∨
      ((1.89 : ℚ) ≤ (w : ℚ) / (h : ℚ) ∧ (w : ℚ) / (h : ℚ) ≤ 1.93) := by
  simp only [_validate_image_aspect_ratio]
  split_ifs with hb
  · refine iff_of_true rfl ?_
    simpa [ACCEPTED_RATIOS] using hb
  · refine iff_of_false (by simp) ?_
    intro hr
    exact hb (by simpa [ACCEPTED_RATIOS] using hr)

theorem validate_result (w h : Nat) :
    _validate_image_aspect_ratio (.ok (w, h)) = .ok () ∨
    _validate_image_aspect_ratio (.ok (w, h)) =
      .error ⟨aspectRatioErrorMsg w h, none, none⟩ := by
  simp only [_validate_image_aspect_ratio]
  split_ifs <;> simp

/-- C8: the validator accepts a fetched `w × h` image iff the ratio `w/h`
lies in one of the three tolerance bands `[0.78, 0.82]`, `[0.98, 1.02]`,
`[1.89, 1.93]`; every rejection carries the message naming the measured
ratio and the accepted bands; and concretely 1000×800 (ratio 1.25) and
1000×1056 (ratio ≈0.947) are rejected while 1000×1000 (ratio 1.0) is
accepted. -/
theorem image_ratio_gate (w h : Nat) (hpos : 0 < h) :
    (_validate_image_aspect_ratio (.ok (w, h)) = .ok () ↔
      ((0.78 : ℚ) ≤ (w : ℚ) / (h : ℚ) ∧ (w : ℚ) / (h : ℚ) ≤ 0.82) ∨
      ((0.98 : ℚ) ≤ (w : ℚ) / (h : ℚ) ∧ (w : ℚ) / (h : ℚ) ≤ 1.02) ∨
      ((1.89 : ℚ) ≤ (w : ℚ) / (h : ℚ) ∧ (w : ℚ) / (h : ℚ) ≤ 1.93)) ∧
    (_validate_image_aspect_ratio (.ok (w, h)) = .ok () ∨
      _validate_image_aspect_ratio (.ok (w, h)) =
        .error ⟨aspectRatioErrorMsg w h, none, none⟩) ∧
    _validate_image_aspect_ratio (.ok (1000, 800)) =
      .error ⟨aspectRatioErrorMsg 1000 800, none, none⟩ ∧
    _validate_image_aspect_ratio (.ok (1000, 1000)) = .ok () ∧
    _validate_image_aspect_ratio (.ok (1000, 1056)) =
      .error ⟨aspectRatioErrorMsg 1000 1056, none, none⟩ ∧
    strContains (aspectRatioErrorMsg 1000 800) "ratio 1.25" = true ∧
    strContains (aspectRatioErrorMsg 1000 1056) "ratio 0.95" = true ∧
    strContains (aspectRatioErrorMsg 1000 800) "4:5 (portrait" = true ∧
    strContains (aspectRatioErrorMsg 1000 800) "1:1 (square" = true ∧
    strContains (aspectRatioErrorMsg 1000 800) "1.91:1 (landscape" = true := by
  have _ : 0 < h := hpos
  refine ⟨validate_ok_iff w h, validate_result w h, ?_, ?_, ?_,
    by decide, by decide, by decide, by decide, by decide⟩
  · rcases validate_result 1000 800 with hr | hr
    · exfalso
      have := (validate_ok_iff 1000 800).mp hr
      norm_num at this
    · exact hr
  · rw [validate_ok_iff]
    norm_num
  · rcases validate_result 1000 1056 with hr | hr
    · exfalso
      have := (validate_ok_iff 1000 1056).mp hr
      norm_num at this
    · exact hr

/-- Witness for C8 at the square image 1000×1000. -/
theorem image_ratio_gate_witness :
    _validate_image_aspect_ratio (.ok (1000, 1000)) = .ok () :=
  (image_ratio_gate 1000 1000 (by decide)).2.2.2.1

end IgMcp
